import Mathlib

/-
Verification of the condominium common-expense core of ComunidadElMaiten.

The repository is a React + Firebase application.  The shallow embedding
below translates, into Lean:

* the TypeScript entity declarations of `shared/types` (the file
  `Usuario` / `Departamento` / `Pago` / `GastoMensual` / `ItemGasto` /
  `GastoExtraordinario` live in) and the constants of
  `shared/config/constants.ts`;
* the user-creation paths of `app/providers/AuthProvider.tsx`;
* the routing guards of `app/router/ProtectedRoute.tsx`,
  `app/router/AppRouter.tsx` and `pages/auth/LoginPage.tsx`;
* the period formatter of `shared/lib/formatters.ts`, together with the
  JavaScript semantics it relies on (`String.prototype.split`,
  `parseInt`, the `Date(year, monthIndex)` constructor's month rollover,
  and date-fns `format "MMMM yyyy"` with the Spanish locale);
* the Firestore security rule for the `pagos` collection given in the
  repository README;
* the Expense Aggregator, Due Calculator and Payment Reconciler, which
  the specification describes but whose executable code is not part of
  the provided sources (only the entity declarations and the README
  document them); these are modelled from the spec, and each such
  definition is marked `Modelled from the spec:` in its doc comment.

Monetary amounts are integer CLP (smallest currency unit); areas and
per-square-meter rates are rationals, matching the spec's requirement
that the rate be kept at full precision until allocation time.
-/

namespace ElMaiten

/-- Error kinds of the core, from spec section 7: invalid input,
forbidden, not found, inconsistent. -/
inductive CoreError : Type where
  | invalidInput : CoreError
  | forbidden : CoreError
  | notFound : CoreError
  | inconsistent : CoreError
deriving DecidableEq, Repr

/-- Embedding of the TypeScript interface `ItemGasto` of `shared/types`:
a concept label and an amount in CLP. -/
structure ItemGasto : Type where
  concepto : String
  monto : Int
deriving DecidableEq, Repr

/-- Embedding of the TypeScript interface `Departamento` of
`shared/types`: id, number, owner, area in square meters, monthly fee,
associated user ids, active flag. -/
structure Departamento : Type where
  id : String
  numero : String
  propietario : String
  metrosCuadrados : ℚ
  cuotaMensual : Int
  usuariosIds : List String
  activo : Bool
deriving DecidableEq, Repr

/-- Output of the Expense Aggregator: the derived fields `total` and
`valorPorM2` of the TypeScript interface `GastoMensual`. -/
structure AggResult : Type where
  total : Int
  valorPorM2 : ℚ
deriving DecidableEq, Repr

/-- Modelled from the spec: the Expense Aggregator (spec section 4.1).
The executable aggregator is not among the provided sources; only the
`GastoMensual` declaration (`total`, `valorPorM2`) and the README
document it.  Given the ordered item list and the total active area, it
fails with invalid input when `totalAreaM2 <= 0` or when some item
amount is negative, and otherwise returns `total = sum of the amounts`
and `valorPorM2 = total / totalAreaM2` kept as an exact rational. -/
def calcularGastoMensual (items : List ItemGasto) (totalAreaM2 : ℚ) :
    Except CoreError AggResult :=
  if totalAreaM2 ≤ 0 then .error .invalidInput
  else if items.any (fun i => decide (i.monto < 0)) then .error .invalidInput
  else
    let total : Int := (items.map (fun i => i.monto)).sum
    .ok ⟨total, (total : ℚ) / totalAreaM2⟩

/-- Modelled from the spec: the Due Calculator for monthly expenses
(spec section 4.2).  The executable calculator is not among the provided
sources.  It fails with invalid input when the department is inactive or
its area is not positive, and otherwise returns
`round (areaM2 * valorPorM2)` with round-half-up to the smallest
currency unit; `round` on ℚ is exactly `⌊x + 1/2⌋`, the spec's
round-half-up rule. -/
def calcularCuota (d : Departamento) (valorPorM2 : ℚ) :
    Except CoreError Int :=
  if d.activo = false then .error .invalidInput
  else if d.metrosCuadrados ≤ 0 then .error .invalidInput
  else .ok (round (d.metrosCuadrados * valorPorM2))

/-- Sum of the areas of a list of departments. -/
def sumAreas (depts : List Departamento) : ℚ :=
  (depts.map (fun d => d.metrosCuadrados)).sum

/-- Sum of the item amounts of an expense item list. -/
def sumMontos (items : List ItemGasto) : Int :=
  (items.map (fun i => i.monto)).sum

/-! ### Payment Reconciler (spec sections 4.3 and 6) -/

/-- Modelled from the spec: the status carried by a payment record as
seen by the Reconciler (spec section 4.3 speaks of pending, paid,
under-review and rejected records).  The Reconciler itself is not among
the provided sources. -/
inductive PaymentStatus : Type where
  | pending : PaymentStatus
  | paid : PaymentStatus
  | underReview : PaymentStatus
  | rejected : PaymentStatus
deriving DecidableEq, Repr

/-- Modelled from the spec: a payment record as supplied to the
Reconciler by the payment query of spec section 6:
`{id, departmentId, period, amount, status, createdAt}`.  Identifiers
and timestamps are naturals; the spec only requires them to be totally
ordered for the tie-break rule. -/
structure PaymentRecord : Type where
  id : Nat
  departmentId : String
  period : String
  amount : Int
  status : PaymentStatus
  createdAt : Nat
deriving DecidableEq, Repr

/-- Record `q` is later than record `p` under the spec's total order:
creation timestamp first, payment identifier as tie-break. -/
def laterThan (q p : PaymentRecord) : Bool :=
  decide (p.createdAt < q.createdAt) ||
    (decide (p.createdAt = q.createdAt) && decide (p.id < q.id))

/-- Modelled from the spec: a department's derived standing for a
period (glossary: PAID / PENDING / UNDER_REVIEW / REJECTED). -/
inductive Standing : Type where
  | paid : Standing
  | pending : Standing
  | underReview : Standing
  | rejected : Standing
deriving DecidableEq, Repr

/-- Rule 1 of the Reconciler: some record has status paid and amount at
least the due. -/
def condPaid (due : Int) (pagos : List PaymentRecord) : Bool :=
  pagos.any (fun p => decide (p.status = .paid) && decide (due ≤ p.amount))

/-- Rule 2 of the Reconciler: some under-review record exists with no
later paid record. -/
def condUnderReview (pagos : List PaymentRecord) : Bool :=
  pagos.any (fun p =>
    decide (p.status = .underReview) &&
      !(pagos.any (fun q => decide (q.status = .paid) && laterThan q p)))

/-- Rule 3 of the Reconciler: the most recent record has status rejected
and no subsequent paid or under-review record exists. -/
def condRejected (pagos : List PaymentRecord) : Bool :=
  pagos.any (fun p =>
    decide (p.status = .rejected) &&
      pagos.all (fun q => !(laterThan q p)) &&
      !(pagos.any (fun q =>
        laterThan q p &&
          (decide (q.status = .paid) || decide (q.status = .underReview)))))

/-- Modelled from the spec: the Reconciler's status-derivation rule
(spec section 4.3, first match wins): PAID when a paid record covers the
due, else UNDER_REVIEW when an under-review record has no later paid
record, else REJECTED when the most recent record is rejected, else
PENDING — including the case of no payment record at all. -/
def classify (due : Int) (pagos : List PaymentRecord) : Standing :=
  if condPaid due pagos then .paid
  else if condUnderReview pagos then .underReview
  else if condRejected pagos then .rejected
  else .pending

/-! ### Entities and constants embedded from the TypeScript sources -/

/-- Embedding of the `estado` union of the TypeScript interface `Pago`
in `shared/types`: exactly the three values pendiente, pagado,
verificando. -/
inductive EstadoPago : Type where
  | pendiente : EstadoPago
  | pagado : EstadoPago
  | verificando : EstadoPago
deriving DecidableEq, Repr

/-- The string carried by each `EstadoPago` value in the TypeScript
union type. -/
def EstadoPago.toStr : EstadoPago → String
  | .pendiente => "pendiente"
  | .pagado => "pagado"
  | .verificando => "verificando"

/-- Embedding of the `metodo` union of the TypeScript interface
`Pago`. -/
inductive MetodoPago : Type where
  | khipu : MetodoPago
  | transferenciaManual : MetodoPago
deriving DecidableEq, Repr

/-- Embedding of the TypeScript interface `Pago` of `shared/types`.
Optional fields become `Option`; dates become natural timestamps. -/
structure Pago : Type where
  id : String
  departamentoId : String
  monto : Int
  periodo : String
  estado : EstadoPago
  metodo : MetodoPago
  khipuPaymentId : Option String
  fechaPago : Option Nat
  verificadoPor : Option String
deriving DecidableEq, Repr

/-- Shape of the constant `ESTADOS_PAGO` of
`shared/config/constants.ts`. -/
structure EstadosPagoConst : Type where
  PENDIENTE : String
  PAGADO : String
  VERIFICANDO : String
deriving DecidableEq, Repr

/-- Embedding of the constant `ESTADOS_PAGO` of
`shared/config/constants.ts`. -/
def ESTADOS_PAGO : EstadosPagoConst :=
  ⟨"pendiente", "pagado", "verificando"⟩

/-- The list of values of the constant `ESTADOS_PAGO`. -/
def estadosPagoValues : List String :=
  [ESTADOS_PAGO.PENDIENTE, ESTADOS_PAGO.PAGADO, ESTADOS_PAGO.VERIFICANDO]

/-- Embedding of the `rol` union of the TypeScript interface `Usuario`
(the values of the constant `ROLES` of `shared/config/constants.ts`). -/
inductive Rol : Type where
  | admin : Rol
  | vecino : Rol
deriving DecidableEq, Repr

/-- Embedding of the TypeScript interface `Usuario` of
`shared/types`. -/
structure Usuario : Type where
  id : String
  email : String
  nombre : String
  departamentoId : Option String
  rol : Rol
  esAdmin : Bool
  fechaRegistro : Nat
deriving DecidableEq, Repr

/-- The document written to Firestore when creating a user: the
TypeScript type `Omit<Usuario, "id">` used in `AuthProvider.tsx`. -/
structure UsuarioDoc : Type where
  email : String
  nombre : String
  departamentoId : Option String
  rol : Rol
  esAdmin : Bool
  fechaRegistro : Nat
deriving DecidableEq, Repr

/-- Embedding of the `nuevoUsuario` document built by `register` in
`AuthProvider.tsx`: email and nombre from the form, departamentoId
null, rol "vecino", esAdmin false, fechaRegistro the current time. -/
def registerNuevoUsuario (email nombre : String) (now : Nat) : UsuarioDoc :=
  { email := email
    nombre := nombre
    departamentoId := none
    rol := .vecino
    esAdmin := false
    fechaRegistro := now }

/-- Embedding of the `nuevoUsuario` document built by `loginWithGoogle`
in `AuthProvider.tsx` on first sign-in: `user.email || ""` and
`user.displayName || "Usuario"`, departamentoId null, rol "vecino",
esAdmin false. -/
def googleNuevoUsuario (userEmail displayName : Option String) (now : Nat) :
    UsuarioDoc :=
  { email := userEmail.getD ""
    nombre := displayName.getD "Usuario"
    departamentoId := none
    rol := .vecino
    esAdmin := false
    fechaRegistro := now }

/-- A user document is role-consistent when its admin flag is true
exactly when its role is the administrator role. -/
def rolConsistente (u : UsuarioDoc) : Prop :=
  u.esAdmin = true ↔ u.rol = Rol.admin

/-! ### Routing guards embedded from the router sources -/

/-- Result of rendering a guarded component: either a `Navigate`
redirect to a path, or the actual content. -/
inductive Render (α : Type) : Type where
  | redirect : String → Render α
  | content : α → Render α
deriving DecidableEq, Repr

/-- Embedding of the component `ProtectedRoute` of
`app/router/ProtectedRoute.tsx`: no authenticated usuario redirects to
/login; an adminOnly route with a non-admin usuario redirects to
/dashboard; otherwise the children render. -/
def protectedRoute {α : Type} (usuario : Option Usuario) (adminOnly : Bool)
    (children : α) : Render α :=
  match usuario with
  | none => .redirect "/login"
  | some u =>
    if adminOnly && !u.esAdmin then .redirect "/dashboard"
    else .content children

/-- Embedding of the component `RootRedirect` of
`app/router/AppRouter.tsx`: it always redirects — to /login without a
usuario, to /admin for an admin, to /dashboard otherwise. -/
def rootRedirect (usuario : Option Usuario) : String :=
  match usuario with
  | none => "/login"
  | some u => if u.esAdmin then "/admin" else "/dashboard"

/-- Embedding of the redirect logic of `LoginPage` in
`pages/auth/LoginPage.tsx`: an authenticated admin is sent to /admin, an
authenticated non-admin to /dashboard, and without a usuario the login
form renders. -/
def loginPageView {α : Type} (usuario : Option Usuario) (loginForm : α) :
    Render α :=
  match usuario with
  | some u => if u.esAdmin then .redirect "/admin" else .redirect "/dashboard"
  | none => .content loginForm

/-! ### Firestore security rule for the pagos collection (README) -/

/-- The request context of a Firestore security rule: `request.auth` is
the authenticated uid, or none for an unauthenticated request. -/
structure FirestoreRequest : Type where
  auth : Option String
deriving DecidableEq, Repr

/-- Embedding of the README Firestore rule for `/pagos/{document=**}`:
`allow read: if request.auth != null`.  The rule never inspects the
document being read, so the document is an unused argument. -/
def pagosAllowRead (req : FirestoreRequest) (document : Pago) : Bool :=
  req.auth.isSome

/-- Embedding of the README Firestore rule for `/pagos/{document=**}`:
`allow create: if request.auth != null`. -/
def pagosAllowCreate (req : FirestoreRequest) : Bool :=
  req.auth.isSome

/-- Embedding of the README Firestore rule for `/pagos/{document=**}`:
`allow update: if request.auth != null && get(usuarios/uid).esAdmin`,
with the usuarios collection supplied as a lookup from uid to the
stored esAdmin flag. -/
def pagosAllowUpdate (req : FirestoreRequest)
    (esAdminLookup : String → Bool) : Bool :=
  match req.auth with
  | none => false
  | some uid => esAdminLookup uid

/-! ### The period formatter of shared/lib/formatters.ts

The TypeScript function is

  const [year, month] = periodo.split("-")
  const date = new Date(parseInt(year), parseInt(month) - 1)
  return format(date, "MMMM yyyy", { locale: es })

so its behaviour is fixed by JavaScript semantics: `parseInt` yields NaN
unless the string (after whitespace and an optional sign) starts with a
decimal digit; `new Date(year, monthIndex)` is an Invalid Date exactly
when some argument is NaN, maps a year 0–99 to 1900–1999, and rolls an
out-of-range month index over into the adjacent years; date-fns
`format` throws a RangeError on an Invalid Date and otherwise renders
the lowercase Spanish month name and the zero-padded calendar year.
The embedding returns `none` for the thrown RangeError. -/

/-- Permuting a list does not change `List.any`. -/
theorem perm_any {α : Type} {l₁ l₂ : List α} (h : l₁.Perm l₂)
    (f : α → Bool) : l₁.any f = l₂.any f := by
  rw [Bool.eq_iff_iff, List.any_eq_true, List.any_eq_true]
  exact ⟨fun ⟨x, hx, hf⟩ => ⟨x, h.mem_iff.mp hx, hf⟩,
    fun ⟨x, hx, hf⟩ => ⟨x, h.mem_iff.mpr hx, hf⟩⟩

/-- Permuting a list does not change `List.all`. -/
theorem perm_all {α : Type} {l₁ l₂ : List α} (h : l₁.Perm l₂)
    (f : α → Bool) : l₁.all f = l₂.all f := by
  rw [Bool.eq_iff_iff, List.all_eq_true, List.all_eq_true]
  exact ⟨fun a x hx => a x (h.mem_iff.mpr hx),
    fun a x hx => a x (h.mem_iff.mp hx)⟩

/-- Summing the round-half-up of each entry moves the sum by at most
half a unit per entry. -/
theorem sum_round_err (xs : List ℚ) :
    |(xs.map (fun x => ((round x : ℤ) : ℚ))).sum - xs.sum| ≤
      (xs.length : ℚ) * (1 / 2) := by
  induction xs with
  | nil => simp
  | cons x xs ih =>
    simp only [List.map_cons, List.sum_cons, List.length_cons]
    have h1 : |((round x : ℤ) : ℚ) - x| ≤ 1 / 2 := by
      rw [abs_sub_comm]; exact abs_sub_round x
    calc |((round x : ℤ) : ℚ) + (xs.map (fun x => ((round x : ℤ) : ℚ))).sum
            - (x + xs.sum)|
        = |(((round x : ℤ) : ℚ) - x) +
            ((xs.map (fun x => ((round x : ℤ) : ℚ))).sum - xs.sum)| := by
          ring_nf
      _ ≤ |((round x : ℤ) : ℚ) - x| +
            |(xs.map (fun x => ((round x : ℤ) : ℚ))).sum - xs.sum| :=
          abs_add _ _
      _ ≤ 1 / 2 + (xs.length : ℚ) * (1 / 2) := add_le_add h1 ih
      _ = ((xs.length : ℚ) + 1) * (1 / 2) := by ring
      _ = (((xs.length + 1 : ℕ)) : ℚ) * (1 / 2) := by push_cast; ring

/-- C1: for every ordered sequence of expense items with non-negative
amounts and every positive total area, the Expense Aggregator returns
the sum of the amounts as total and total divided by the area as
valorPorM2; on the items Agua 50000 and Aseo 30000 with area 500 it
returns total 80000 and valorPorM2 160, and a department of 50 square
meters then has due 8000. -/
theorem aggregator_total_and_rate (items : List ItemGasto)
    (totalAreaM2 : ℚ) (harea : 0 < totalAreaM2)
    (hpos : ∀ i ∈ items, 0 ≤ i.monto) :
    calcularGastoMensual items totalAreaM2 =
      .ok ⟨sumMontos items, (sumMontos items : ℚ) / totalAreaM2⟩
    ∧ calcularGastoMensual [⟨"Agua", 50000⟩, ⟨"Aseo", 30000⟩] 500 =
      .ok ⟨80000, 160⟩
    ∧ calcularCuota ⟨"depto_11", "11", "Dueno", 50, 28000, [], true⟩ 160 =
      .ok 8000 := by
  refine ⟨?_, by norm_num [calcularGastoMensual], by norm_num [calcularCuota]⟩
  have hany : items.any (fun i => decide (i.monto < 0)) = false := by
    rw [List.any_eq_false]
    intro i hi
    simpa using not_lt.mpr (hpos i hi)
  unfold calcularGastoMensual
  rw [if_neg (not_le.mpr harea), if_neg (by rw [hany]; exact Bool.false_ne_true)]
  rfl

/-- Witness for C1 at the spec's Scenario A. -/
theorem aggregator_total_and_rate_witness :
    calcularGastoMensual [⟨"Agua", 50000⟩, ⟨"Aseo", 30000⟩] 500 =
      .ok ⟨80000, 160⟩ :=
  (aggregator_total_and_rate [⟨"Agua", 50000⟩, ⟨"Aseo", 30000⟩] 500
    (by norm_num) (by decide)).2.1

/-- C6: the Expense Aggregator fails with invalid input whenever the
area is not positive or some item amount is negative, and the Due
Calculator fails with invalid input whenever the department is inactive
or its area is not positive; an inactive department is never assigned a
due at all, in particular not due 0. -/
theorem invalid_input_conditions :
    (∀ (items : List ItemGasto) (a : ℚ), a ≤ 0 →
      calcularGastoMensual items a = .error .invalidInput)
    ∧ (∀ (items : List ItemGasto) (a : ℚ), (∃ i ∈ items, i.monto < 0) →
      calcularGastoMensual items a = .error .invalidInput)
    ∧ (∀ (d : Departamento) (r : ℚ), d.activo = false →
      calcularCuota d r = .error .invalidInput)
    ∧ (∀ (d : Departamento) (r : ℚ), d.metrosCuadrados ≤ 0 →
      calcularCuota d r = .error .invalidInput)
    ∧ (∀ (d : Departamento) (r : ℚ) (v : Int), d.activo = false →
      calcularCuota d r ≠ .ok v) := by
  refine ⟨?_, ?_, ?_, ?_, ?_⟩
  · intro items a ha
    unfold calcularGastoMensual
    rw [if_pos ha]
  · intro items a ⟨i, hi, hneg⟩
    unfold calcularGastoMensual
    by_cases ha : a ≤ 0
    · rw [if_pos ha]
    · rw [if_neg ha, if_pos]
      rw [List.any_eq_true]
      exact ⟨i, hi, by simpa using hneg⟩
  · intro d r hd
    unfold calcularCuota
    rw [if_pos hd]
  · intro d r hm
    unfold calcularCuota
    by_cases hd : d.activo = false
    · rw [if_pos hd]
    · rw [if_neg hd, if_pos hm]
  · intro d r v hd
    unfold calcularCuota
    rw [if_pos hd]
    exact fun h => Except.noConfusion h

/-- Witness for C6: an inactive department and a non-positive area both
produce invalid input. -/
theorem invalid_input_conditions_witness :
    calcularGastoMensual [] 0 = .error .invalidInput
    ∧ calcularCuota ⟨"depto_11", "11", "Dueno", 50, 28000, [], false⟩ 160 =
      .error .invalidInput
    ∧ calcularCuota ⟨"depto_11", "11", "Dueno", 50, 28000, [], false⟩ 160 ≠
      .ok 0 :=
  ⟨invalid_input_conditions.1 [] 0 le_rfl,
    invalid_input_conditions.2.2.1 _ 160 rfl,
    invalid_input_conditions.2.2.2.2 _ 160 0 rfl⟩

/-- C3: with the rate derived as total over the active area, each
active department's due is the round-half-up of its area times the
rate, computed by the Due Calculator, and the dues sum back to the
total within half a currency unit per department. -/
theorem dues_reconcile (total : Int) (depts : List Departamento)
    (hA : 0 < sumAreas depts)
    (hact : ∀ d ∈ depts, d.activo = true)
    (hpos : ∀ d ∈ depts, 0 < d.metrosCuadrados) :
    (∀ d ∈ depts,
      calcularCuota d ((total : ℚ) / sumAreas depts) =
        .ok (round (d.metrosCuadrados * ((total : ℚ) / sumAreas depts))))
    ∧ |(depts.map (fun d =>
          ((round (d.metrosCuadrados * ((total : ℚ) / sumAreas depts)) :
            ℤ) : ℚ))).sum - (total : ℚ)| ≤
        (depts.length : ℚ) * (1 / 2) := by
  constructor
  · intro d hd
    unfold calcularCuota
    rw [if_neg (by rw [hact d hd]; exact fun hc => Bool.noConfusion hc),
      if_neg (not_le.mpr (hpos d hd))]
  · have key := sum_round_err
      (depts.map (fun d => d.metrosCuadrados * ((total : ℚ) / sumAreas depts)))
    have hsum : (depts.map
        (fun d => d.metrosCuadrados * ((total : ℚ) / sumAreas depts))).sum =
        (total : ℚ) := by
      rw [List.sum_map_mul_right]
      have h0 : sumAreas depts ≠ 0 := ne_of_gt hA
      rw [show (depts.map fun d => d.metrosCuadrados).sum = sumAreas depts
        from rfl]
      rw [mul_comm, div_mul_cancel₀ _ h0]
    rw [List.map_map, hsum, List.length_map] at key
    simpa [Function.comp_def] using key

/-- Witness for C3: two active departments of 50 and 450 square meters
and a total of 80000 reconcile within one currency unit. -/
theorem dues_reconcile_witness :
    |(([⟨"depto_11", "11", "A", 50, 28000, [], true⟩,
        ⟨"depto_21", "21", "B", 450, 28000, [], true⟩] :
          List Departamento).map (fun d =>
        ((round (d.metrosCuadrados * ((80000 : ℚ) /
          sumAreas [⟨"depto_11", "11", "A", 50, 28000, [], true⟩,
            ⟨"depto_21", "21", "B", 450, 28000, [], true⟩])) : ℤ) : ℚ))).sum
      - (80000 : ℚ)| ≤ (2 : ℚ) * (1 / 2) := by
  have h := (dues_reconcile 80000
    [⟨"depto_11", "11", "A", 50, 28000, [], true⟩,
      ⟨"depto_21", "21", "B", 450, 28000, [], true⟩]
    (by norm_num [sumAreas]) (by decide) (by decide)).2
  simpa using h

/-- C2: the Reconciler's standing is PAID exactly when a paid record of
amount at least the due exists; a list of only partial paid records
yields PENDING; and the empty record list yields PENDING rather than an
error. -/
theorem classify_standing_rule (due : Int) (pagos : List PaymentRecord) :
    (classify due pagos = .paid ↔
      ∃ p ∈ pagos, p.status = .paid ∧ due ≤ p.amount)
    ∧ ((∀ p ∈ pagos, p.status = .paid ∧ p.amount < due) →
        classify due pagos = .pending)
    ∧ classify due ([] : List PaymentRecord) = .pending := by
  refine ⟨?_, ?_, rfl⟩
  · unfold classify
    by_cases h : condPaid due pagos = true
    · rw [if_pos h]
      rw [condPaid, List.any_eq_true] at h
      obtain ⟨p, hp, hcond⟩ := h
      rw [Bool.and_eq_true, decide_eq_true_eq, decide_eq_true_eq] at hcond
      exact ⟨fun _ => ⟨p, hp, hcond⟩, fun _ => rfl⟩
    · rw [if_neg h]
      constructor
      · intro hcl
        exfalso
        by_cases h2 : condUnderReview pagos = true
        · rw [if_pos h2] at hcl; exact Standing.noConfusion hcl
        · rw [if_neg h2] at hcl
          by_cases h3 : condRejected pagos = true
          · rw [if_pos h3] at hcl; exact Standing.noConfusion hcl
          · rw [if_neg h3] at hcl; exact Standing.noConfusion hcl
      · rintro ⟨p, hp, hst, hamt⟩
        exfalso
        apply h
        rw [condPaid, List.any_eq_true]
        exact ⟨p, hp, by
          rw [Bool.and_eq_true, decide_eq_true_eq, decide_eq_true_eq]
          exact ⟨hst, hamt⟩⟩
  · intro hall
    have h1 : condPaid due pagos = false := by
      rw [condPaid, List.any_eq_false]
      intro p hp hc
      rw [Bool.and_eq_true, decide_eq_true_eq, decide_eq_true_eq] at hc
      exact absurd (hall p hp).2 (not_lt.mpr hc.2)
    have h2 : condUnderReview pagos = false := by
      rw [condUnderReview, List.any_eq_false]
      intro p hp hc
      rw [Bool.and_eq_true, decide_eq_true_eq] at hc
      rw [(hall p hp).1] at hc
      exact PaymentStatus.noConfusion hc.1
    have h3 : condRejected pagos = false := by
      rw [condRejected, List.any_eq_false]
      intro p hp hc
      rw [Bool.and_eq_true, Bool.and_eq_true, decide_eq_true_eq] at hc
      rw [(hall p hp).1] at hc
      exact PaymentStatus.noConfusion hc.1.1
    simp [classify, h1, h2, h3]

/-- Witness for C2 at the spec's Scenarios B, C and D: a covering paid
record gives PAID, a partial paid record gives PENDING, and no record
gives PENDING. -/
theorem classify_standing_rule_witness :
    classify 8000 [⟨1, "depto_11", "2025-01", 8000, .paid, 10⟩] = .paid
    ∧ classify 8000 [⟨1, "depto_11", "2025-01", 5000, .paid, 10⟩] = .pending
    ∧ classify 8000 ([] : List PaymentRecord) = .pending := by
  refine ⟨?_, ?_, (classify_standing_rule 8000 []).2.2⟩
  · exact (classify_standing_rule 8000 _).1.mpr
      ⟨⟨1, "depto_11", "2025-01", 8000, .paid, 10⟩, by simp, rfl, by norm_num⟩
  · exact (classify_standing_rule 8000 _).2.1 (by decide)

/-- C7: the Aggregator and Calculator are deterministic — two calls on
identical inputs give identical outputs — and the Reconciler's classify
is unchanged under any reordering of its input payment records. -/
theorem core_pure_deterministic (items : List ItemGasto) (a : ℚ)
    (d : Departamento) (r : ℚ) (due : Int)
    (l₁ l₂ : List PaymentRecord) (h : l₁.Perm l₂) :
    calcularGastoMensual items a = calcularGastoMensual items a
    ∧ calcularCuota d r = calcularCuota d r
    ∧ classify due l₁ = classify due l₂ := by
  refine ⟨rfl, rfl, ?_⟩
  have hPaid : condPaid due l₁ = condPaid due l₂ := perm_any h _
  have hUR : condUnderReview l₁ = condUnderReview l₂ := by
    unfold condUnderReview
    have hf : (fun p : PaymentRecord =>
        decide (p.status = .underReview) &&
          !(l₁.any fun q => decide (q.status = .paid) && laterThan q p)) =
        (fun p : PaymentRecord =>
        decide (p.status = .underReview) &&
          !(l₂.any fun q => decide (q.status = .paid) && laterThan q p)) := by
      funext p
      rw [perm_any h]
    rw [hf, perm_any h]
  have hRej : condRejected l₁ = condRejected l₂ := by
    unfold condRejected
    have hf : (fun p : PaymentRecord =>
        decide (p.status = .rejected) &&
          l₁.all (fun q => !(laterThan q p)) &&
          !(l₁.any (fun q => laterThan q p &&
            (decide (q.status = .paid) || decide (q.status = .underReview))))) =
        (fun p : PaymentRecord =>
        decide (p.status = .rejected) &&
          l₂.all (fun q => !(laterThan q p)) &&
          !(l₂.any (fun q => laterThan q p &&
            (decide (q.status = .paid) || decide (q.status = .underReview))))) := by
      funext p
      rw [perm_all h, perm_any h]
    rw [hf, perm_any h]
  unfold classify
  rw [hPaid, hUR, hRej]

/-- Witness for C7: swapping two payment records does not change the
classification. -/
theorem core_pure_deterministic_witness :
    classify 8000
      [⟨1, "depto_11", "2025-01", 5000, .paid, 10⟩,
        ⟨2, "depto_11", "2025-01", 8000, .underReview, 20⟩] =
    classify 8000
      [⟨2, "depto_11", "2025-01", 8000, .underReview, 20⟩,
        ⟨1, "depto_11", "2025-01", 5000, .paid, 10⟩] :=
  (core_pure_deterministic [] 1 ⟨"depto_11", "11", "A", 50, 28000, [], true⟩
    1 8000 _ _ (List.Perm.swap _ _ _)).2.2

/-- C4 counterexample: the set of payment status values of the code is
not the claimed four-element set — the value rechazado is neither among
the values of the constant ESTADOS_PAGO nor representable in the estado
union of the Pago interface. -/
theorem pago_estado_not_four_values :
    (¬ ∀ s : String, s ∈ estadosPagoValues ↔
        s ∈ ["pendiente", "pagado", "verificando", "rechazado"])
    ∧ "rechazado" ∉ estadosPagoValues
    ∧ (∀ e : EstadoPago, EstadoPago.toStr e ≠ "rechazado") := by
  refine ⟨?_, by decide, ?_⟩
  · intro hcl
    have hmem := (hcl "rechazado").mpr (by simp)
    revert hmem
    decide
  · intro e
    cases e <;> decide

/-- C4 amended: every payment's status is one of exactly the three
values pendiente, pagado, verificando — the values of ESTADOS_PAGO and
the three alternatives of the estado union of Pago. -/
theorem pago_estado_three_values (p : Pago) :
    p.estado.toStr ∈ estadosPagoValues
    ∧ estadosPagoValues =
        [EstadoPago.pendiente.toStr, EstadoPago.pagado.toStr,
          EstadoPago.verificando.toStr]
    ∧ estadosPagoValues.length = 3
    ∧ estadosPagoValues.Nodup := by
  refine ⟨?_, by decide, by decide, by decide⟩
  cases p.estado <;> decide

/-- Witness for C4 amended at a concrete pending payment. -/
theorem pago_estado_three_values_witness :
    (Pago.mk "p1" "depto_11" 28000 "2025-01" .pendiente .khipu
      none none none).estado.toStr ∈ estadosPagoValues :=
  (pago_estado_three_values
    ⟨"p1", "depto_11", 28000, "2025-01", .pendiente, .khipu,
      none, none, none⟩).1

/-- A resident user of department depto_11, as created by the
application (not an admin). -/
def vecinoUsuario : Usuario :=
  ⟨"uid-vecino-1", "vecino@maiten.cl", "Vecino Uno", some "depto_11",
    .vecino, false, 0⟩

/-- A payment referencing a different department, depto_22. -/
def pagoOtroDepto : Pago :=
  ⟨"pago-9", "depto_22", 28000, "2025-01", .pendiente,
    .transferenciaManual, none, none, none⟩

/-- C5: the README Firestore rule for the pagos collection grants read
to every authenticated request — in particular an authenticated
resident of depto_11 may read a payment of depto_22, and the rule's
outcome never depends on the document at all, so the own-department
restriction the rule's own comment and the spec describe is not
enforced. -/
theorem pagos_rule_allows_cross_department_read :
    pagosAllowRead ⟨some vecinoUsuario.id⟩ pagoOtroDepto = true
    ∧ vecinoUsuario.esAdmin = false
    ∧ vecinoUsuario.departamentoId = some "depto_11"
    ∧ pagoOtroDepto.departamentoId = "depto_22"
    ∧ (∀ (req : FirestoreRequest) (p q : Pago),
        pagosAllowRead req p = pagosAllowRead req q) :=
  ⟨rfl, rfl, rfl, rfl, fun _ _ _ => rfl⟩

/-- C8: both self-service user-creation paths — email/password
registration and first-time Google sign-in — create a user document
with rol vecino, esAdmin false and departamentoId null, hence a
role-consistent non-administrator. -/
theorem self_service_creates_vecino (email nombre : String)
    (gEmail gName : Option String) (now : Nat) :
    (registerNuevoUsuario email nombre now).rol = .vecino
    ∧ (registerNuevoUsuario email nombre now).esAdmin = false
    ∧ (registerNuevoUsuario email nombre now).departamentoId = none
    ∧ rolConsistente (registerNuevoUsuario email nombre now)
    ∧ (googleNuevoUsuario gEmail gName now).rol = .vecino
    ∧ (googleNuevoUsuario gEmail gName now).esAdmin = false
    ∧ (googleNuevoUsuario gEmail gName now).departamentoId = none
    ∧ rolConsistente (googleNuevoUsuario gEmail gName now) := by
  refine ⟨rfl, rfl, rfl, ?_, rfl, rfl, rfl, ?_⟩ <;>
    simp [rolConsistente, registerNuevoUsuario, googleNuevoUsuario]

/-- Witness for C8 at a concrete registration and Google sign-in. -/
theorem self_service_creates_vecino_witness :
    rolConsistente (registerNuevoUsuario "ana@maiten.cl" "Ana" 0)
    ∧ (googleNuevoUsuario none none 0).esAdmin = false :=
  ⟨(self_service_creates_vecino "ana@maiten.cl" "Ana" none none 0).2.2.2.1,
    (self_service_creates_vecino "ana@maiten.cl" "Ana" none none 0).2.2.2.2.2.1⟩

/-- C9: the routing guards are total and exclusive — ProtectedRoute
redirects to /login without a usuario, to /dashboard on an adminOnly
route for a non-admin, and otherwise renders the children; RootRedirect
and LoginPage send an authenticated admin to /admin and an
authenticated non-admin to /dashboard. -/
theorem routing_total_exclusive (α : Type) (adminOnly : Bool)
    (c lf : α) (u : Usuario) :
    protectedRoute none adminOnly c = Render.redirect "/login"
    ∧ (u.esAdmin = false →
        protectedRoute (some u) true c = Render.redirect "/dashboard")
    ∧ (adminOnly = false ∨ u.esAdmin = true →
        protectedRoute (some u) adminOnly c = Render.content c)
    ∧ rootRedirect none = "/login"
    ∧ (u.esAdmin = true → rootRedirect (some u) = "/admin")
    ∧ (u.esAdmin = false → rootRedirect (some u) = "/dashboard")
    ∧ loginPageView none lf = Render.content lf
    ∧ (u.esAdmin = true → loginPageView (some u) lf = Render.redirect "/admin")
    ∧ (u.esAdmin = false →
        loginPageView (some u) lf = Render.redirect "/dashboard") := by
  refine ⟨rfl, ?_, ?_, rfl, ?_, ?_, rfl, ?_, ?_⟩
  · intro h
    simp [protectedRoute, h]
  · intro h
    rcases h with h | h <;> simp [protectedRoute, h]
  · intro h
    simp [rootRedirect, h]
  · intro h
    simp [rootRedirect, h]
  · intro h
    simp [loginPageView, h]
  · intro h
    simp [loginPageView, h]

/-- Witness for C9 at concrete users: a non-admin hits the /dashboard
redirect on an adminOnly route, an admin is sent to /admin from the
root. -/
theorem routing_total_exclusive_witness :
    protectedRoute (α := String) none false "page" = Render.redirect "/login"
    ∧ protectedRoute
        (some ⟨"u1", "v@m.cl", "V", none, .vecino, false, 0⟩) true "page" =
        Render.redirect "/dashboard"
    ∧ rootRedirect (some ⟨"u2", "a@m.cl", "A", none, .admin, true, 0⟩) =
        "/admin" := by
  refine ⟨(routing_total_exclusive String false "page" "x"
    ⟨"u1", "v@m.cl", "V", none, .vecino, false, 0⟩).1, ?_, ?_⟩
  · exact (routing_total_exclusive String true "page" "x"
      ⟨"u1", "v@m.cl", "V", none, .vecino, false, 0⟩).2.1 rfl
  · exact (routing_total_exclusive String false "page" "x"
      ⟨"u2", "a@m.cl", "A", none, .admin, true, 0⟩).2.2.2.2.1 rfl

end ElMaiten
